import Mathlib

/-!
Verification of the hybrid search/caching resolver of the LogosX repository
(`debate_arena.search`): the `HybridSearchEngine` orchestration, the
`Embedder` (deterministic blake2b-seeded hash embedding), the
`RedisVectorCache` (exact get/set keyed by SHA-256 of the trimmed query,
similarity-hit parsing) and the `SqliteCache` cold cache.

The Python code is shallowly embedded: machine integers are `Nat` with
explicit masking modulo 2^64 / 2^32, float vectors are exact rationals
(with a normalized vector represented as an integer vector together with
the square of its scaling denominator), fallible calls are `Except`, and
the backends consulted by the resolver are explicit function parameters so
that each tier's hit/miss/failure behaviour can be instantiated.
-/

/-- Byte mask for 64-bit arithmetic. -/
def mask64 : Nat := 0xFFFFFFFFFFFFFFFF

/-- Byte mask for 32-bit arithmetic. -/
def mask32 : Nat := 0xFFFFFFFF

/-- Addition modulo 2^64. -/
def add64 (x y : Nat) : Nat := (x + y) &&& mask64

/-- Right rotation of a 64-bit word. -/
def rotr64 (x n : Nat) : Nat := ((x >>> n) ||| (x <<< (64 - n))) &&& mask64

/-- Right rotation of a 32-bit word. -/
def rotr32 (x n : Nat) : Nat := ((x >>> n) ||| (x <<< (32 - n))) &&& mask32

/-- Little-endian interpretation of a byte list as a natural number,
matching Python `int.from_bytes(-, byteorder="little")`. -/
def fromBytesLE (l : List Nat) : Nat := l.foldr (fun b acc => b + 256 * acc) 0

/-- Big-endian interpretation of a byte list. -/
def fromBytesBE (l : List Nat) : Nat := l.foldl (fun acc b => acc * 256 + b) 0

/-- The `n` little-endian bytes of a word. -/
def toBytesLE : Nat → Nat → List Nat
  | 0, _ => []
  | n + 1, w => (w % 256) :: toBytesLE n (w / 256)

/-- The `n` big-endian bytes of a word. -/
def toBytesBE (n w : Nat) : List Nat := (toBytesLE n w).reverse

/-- The whitespace predicate of Python `str.strip()` (the code points
stripped by `strip` with no argument that occur in this development:
ASCII whitespace and the common Unicode space code points). -/
def pyIsSpace (c : Char) : Bool :=
  c.toNat = 0x20 || (0x9 ≤ c.toNat && c.toNat ≤ 0xD) ||
  (0x1C ≤ c.toNat && c.toNat ≤ 0x1F) || c.toNat = 0x85 || c.toNat = 0xA0 ||
  c.toNat = 0x1680 || (0x2000 ≤ c.toNat && c.toNat ≤ 0x200A) ||
  c.toNat = 0x2028 || c.toNat = 0x2029 || c.toNat = 0x202F ||
  c.toNat = 0x205F || c.toNat = 0x3000

/-- Python `str.strip()`: drop leading and trailing whitespace. -/
def pyStrip (s : String) : String :=
  String.mk (((s.data.dropWhile pyIsSpace).reverse.dropWhile pyIsSpace).reverse)

/-- UTF-8 encoding of one Unicode scalar value (Lean `Char` values are
valid scalars, so `errors="ignore"` in the source never drops anything). -/
def utf8Char (n : Nat) : List Nat :=
  if n < 0x80 then [n]
  else if n < 0x800 then
    [0xC0 ||| (n >>> 6), 0x80 ||| (n &&& 0x3F)]
  else if n < 0x10000 then
    [0xE0 ||| (n >>> 12), 0x80 ||| ((n >>> 6) &&& 0x3F), 0x80 ||| (n &&& 0x3F)]
  else
    [0xF0 ||| (n >>> 18), 0x80 ||| ((n >>> 12) &&& 0x3F),
     0x80 ||| ((n >>> 6) &&& 0x3F), 0x80 ||| (n &&& 0x3F)]

/-- Python `s.encode("utf-8")` as a byte list. -/
def utf8Encode (s : String) : List Nat := s.data.foldr (fun c acc => utf8Char c.toNat ++ acc) []

/-! ### blake2b (digest size 32, no key), as used by `_hash_embed` -/

/-- blake2b initialization vector. -/
def blakeIV : List Nat :=
  [7640891576956012808, 13503953896175478587, 4354685564936845355, 11912009170470909681,
   5840696475078001361, 11170449401992604703, 2270897969802886507, 6620516959819538809]

/-- blake2b message schedule permutations. -/
def blakeSigma : List (List Nat) :=
  [[0, 1, 2, 3, 4, 5, 6, 7, 8, 9, 10, 11, 12, 13, 14, 15],
   [14, 10, 4, 8, 9, 15, 13, 6, 1, 12, 0, 2, 11, 7, 5, 3],
   [11, 8, 12, 0, 5, 2, 15, 13, 10, 14, 3, 6, 7, 1, 9, 4],
   [7, 9, 3, 1, 13, 12, 11, 14, 2, 6, 5, 10, 4, 0, 15, 8],
   [9, 0, 5, 7, 2, 4, 10, 15, 14, 1, 11, 12, 6, 8, 3, 13],
   [2, 12, 6, 10, 0, 11, 8, 3, 4, 13, 7, 5, 15, 14, 1, 9],
   [12, 5, 1, 15, 14, 13, 4, 10, 0, 7, 6, 3, 9, 2, 8, 11],
   [13, 11, 7, 14, 12, 1, 3, 9, 5, 0, 15, 4, 8, 6, 2, 10],
   [6, 15, 14, 9, 11, 3, 0, 8, 12, 2, 13, 7, 1, 4, 10, 5],
   [10, 2, 8, 4, 7, 6, 1, 5, 15, 11, 9, 14, 3, 12, 13, 0]]

/-- The blake2b mixing function G on working vector `v` at indices
`a b c d` with message words `x y`. -/
def blakeG (v : List Nat) (a b c d x y : Nat) : List Nat :=
  let va := add64 (add64 (v.getD a 0) (v.getD b 0)) x
  let vd := rotr64 ((v.getD d 0) ^^^ va) 32
  let vc := add64 (v.getD c 0) vd
  let vb := rotr64 ((v.getD b 0) ^^^ vc) 24
  let va2 := add64 (add64 va vb) y
  let vd2 := rotr64 (vd ^^^ va2) 16
  let vc2 := add64 vc vd2
  let vb2 := rotr64 (vb ^^^ vc2) 63
  (((v.set a va2).set b vb2).set c vc2).set d vd2

/-- One blake2b round with message words `m` and sigma row `s`. -/
def blakeRound (v m s : List Nat) : List Nat :=
  let mi := fun (i : Nat) => m.getD (s.getD i 0) 0
  let v1 := blakeG v 0 4 8 12 (mi 0) (mi 1)
  let v2 := blakeG v1 1 5 9 13 (mi 2) (mi 3)
  let v3 := blakeG v2 2 6 10 14 (mi 4) (mi 5)
  let v4 := blakeG v3 3 7 11 15 (mi 6) (mi 7)
  let v5 := blakeG v4 0 5 10 15 (mi 8) (mi 9)
  let v6 := blakeG v5 1 6 11 12 (mi 10) (mi 11)
  let v7 := blakeG v6 2 7 8 13 (mi 12) (mi 13)
  blakeG v7 3 4 9 14 (mi 14) (mi 15)

/-- Initialization of the blake2b working vector from the state `h`, the
byte counter `t` and the final-block flag `f`. -/
def blakeInit (h : List Nat) (t : Nat) (f : Bool) : List Nat :=
  let v0 := h ++ blakeIV
  let v1 := v0.set 12 ((v0.getD 12 0) ^^^ (t &&& mask64))
  let v2 := v1.set 13 ((v1.getD 13 0) ^^^ (t >>> 64))
  if f then v2.set 14 ((v2.getD 14 0) ^^^ mask64) else v2

/-- Finalization of the blake2b compression: feed the halves of the
working vector back into the state. -/
def blakeFinal (h vf : List Nat) : List Nat :=
  (List.range 8).map (fun i => (h.getD i 0) ^^^ (vf.getD i 0) ^^^ (vf.getD (i + 8) 0))

/-- The blake2b compression function: state `h`, 16 message words `m`,
byte counter `t`, final-block flag `f`. -/
def blakeCompress (h m : List Nat) (t : Nat) (f : Bool) : List Nat :=
  blakeFinal h
    ((List.range 12).foldl (fun v r => blakeRound v m (blakeSigma.getD (r % 10) []))
      (blakeInit h t f))

/-- Pad a partial block with zero bytes to 128 bytes. -/
def pad128 (b : List Nat) : List Nat := b ++ List.replicate (128 - b.length) 0

/-- Split a 128-byte block into 16 little-endian 64-bit words. -/
def blakeWords (b : List Nat) : List Nat :=
  (List.range 16).map (fun i => fromBytesLE ((b.drop (8 * i)).take 8))

/-- Process the message through the compression function, 128-byte
blocks at a time; the last block (possibly the only, possibly empty)
is padded and flagged final with the total byte count. Recursion is on
an explicit block-count bound `fuel` (structural, so the kernel can
evaluate it); any `fuel ≥ data.length / 128` covers all blocks, and the
fuel-exhausted case coincides with the final-block case so the bound is
immaterial. -/
def blakeGo (h : List Nat) (counted : Nat) (data : List Nat) (fuel : Nat) : List Nat :=
  if data.length ≤ 128 then
      blakeCompress h (blakeWords (pad128 data)) (counted + data.length) true
    else
      match fuel with
      | 0 => blakeCompress h (blakeWords (pad128 data)) (counted + data.length) true
      | fuel + 1 =>
        blakeGo (blakeCompress h (blakeWords (data.take 128)) (counted + 128) false)
          (counted + 128) (data.drop 128) fuel

/-- The digest `hashlib.blake2b(data, digest_size=32).digest()` as a byte list. -/
def blake2b256 (data : List Nat) : List Nat :=
  let h0 := blakeIV.set 0 ((blakeIV.getD 0 0) ^^^ 0x01010020)
  let hh := blakeGo h0 0 data data.length
  ((hh.take 4).map (toBytesLE 8)).flatten

/-! ### SHA-256, as used by `RedisVectorCache._stable_id` -/

/-- SHA-256 round constants. -/
def shaK : List Nat :=
  [1116352408, 1899447441, 3049323471, 3921009573, 961987163, 1508970993,
   2453635748, 2870763221, 3624381080, 310598401, 607225278, 1426881987,
   1925078388, 2162078206, 2614888103, 3248222580, 3835390401, 4022224774,
   264347078, 604807628, 770255983, 1249150122, 1555081692, 1996064986,
   2554220882, 2821834349, 2952996808, 3210313671, 3336571891, 3584528711,
   113926993, 338241895, 666307205, 773529912, 1294757372, 1396182291,
   1695183700, 1986661051, 2177026350, 2456956037, 2730485921, 2820302411,
   3259730800, 3345764771, 3516065817, 3600352804, 4094571909, 275423344,
   430227734, 506948616, 659060556, 883997877, 958139571, 1322822218,
   1537002063, 1747873779, 1955562222, 2024104815, 2227730452, 2361852424,
   2428436474, 2756734187, 3204031479, 3329325298]

/-- SHA-256 initial state. -/
def shaH0 : List Nat :=
  [1779033703, 3144134277, 1013904242, 2773480762,
   1359893119, 2600822924, 528734635, 1541459225]

/-- SHA-256 message padding. -/
def shaPad (msg : List Nat) : List Nat :=
  let len := msg.length
  let k := (119 - len % 64) % 64
  msg ++ [0x80] ++ List.replicate k 0 ++ toBytesBE 8 (len * 8)

/-- Extend 16 message words to the 64-word schedule. -/
def shaExtend (w0 : List Nat) : List Nat :=
  (List.range 48).foldl
    (fun w _ =>
      let i := w.length
      let s0 := (rotr32 (w.getD (i - 15) 0) 7) ^^^ (rotr32 (w.getD (i - 15) 0) 18) ^^^
        ((w.getD (i - 15) 0) >>> 3)
      let s1 := (rotr32 (w.getD (i - 2) 0) 17) ^^^ (rotr32 (w.getD (i - 2) 0) 19) ^^^
        ((w.getD (i - 2) 0) >>> 10)
      w ++ [(w.getD (i - 16) 0 + s0 + w.getD (i - 7) 0 + s1) &&& mask32])
    w0

/-- One SHA-256 compression round on the 8-word working state. -/
def shaRound (st : List Nat) (ki wi : Nat) : List Nat :=
  let a := st.getD 0 0
  let b := st.getD 1 0
  let c := st.getD 2 0
  let d := st.getD 3 0
  let e := st.getD 4 0
  let f := st.getD 5 0
  let g := st.getD 6 0
  let h := st.getD 7 0
  let s1 := (rotr32 e 6) ^^^ (rotr32 e 11) ^^^ (rotr32 e 25)
  let ch := (e &&& f) ^^^ ((e ^^^ mask32) &&& g)
  let t1 := (h + s1 + ch + ki + wi) &&& mask32
  let s0 := (rotr32 a 2) ^^^ (rotr32 a 13) ^^^ (rotr32 a 22)
  let maj := (a &&& b) ^^^ (a &&& c) ^^^ (b &&& c)
  let t2 := (s0 + maj) &&& mask32
  [(t1 + t2) &&& mask32, a, b, c, (d + t1) &&& mask32, e, f, g]

/-- Compress one 64-byte block into the state. -/
def shaBlock (h : List Nat) (block : List Nat) : List Nat :=
  let w := shaExtend ((List.range 16).map (fun i => fromBytesBE ((block.drop (4 * i)).take 4)))
  let st := (List.range 64).foldl (fun st i => shaRound st (shaK.getD i 0) (w.getD i 0)) h
  (List.range 8).map (fun i => (h.getD i 0 + st.getD i 0) &&& mask32)

/-- Process already-padded data (length a positive multiple of 64),
one 64-byte block at a time. Recursion is on an explicit block-count
bound `fuel`, as in `blakeGo`. -/
def shaGo (h : List Nat) (data : List Nat) (fuel : Nat) : List Nat :=
  if data.length ≤ 64 then shaBlock h data
  else
    match fuel with
    | 0 => shaBlock h data
    | fuel + 1 => shaGo (shaBlock h (data.take 64)) (data.drop 64) fuel

/-- SHA-256 digest of a byte list, as a byte list. -/
def sha256Bytes (msg : List Nat) : List Nat :=
  ((shaGo shaH0 (shaPad msg) msg.length).map (toBytesBE 4)).flatten

/-- Lowercase hex digit. -/
def hexChar (n : Nat) : Char :=
  if n < 10 then Char.ofNat (48 + n) else Char.ofNat (87 + n)

/-- Lowercase hex rendering of a byte list, matching `hexdigest()`. -/
def bytesToHex (bs : List Nat) : String :=
  String.mk (bs.foldr (fun b acc => hexChar (b / 16 % 16) :: hexChar (b % 16) :: acc) [])

/-! ### JSON values

Payloads are Python dicts that travel through `json.dumps`/`json.loads`.
They are modelled as JSON trees; the string codec round-trips on trees, so
serialization is the identity here, and a stored `payload_json` field that
is not valid JSON is modelled explicitly (see `PJson`). -/

/-- A JSON value (string-keyed objects, as produced by `json.loads`). -/
inductive Json where
  | null : Json
  | bool (b : Bool) : Json
  | num (q : ℚ) : Json
  | str (s : String) : Json
  | arr (xs : List Json) : Json
  | obj (fields : List (String × Json)) : Json

/-- Python truthiness of a JSON value (`if exact:` in the resolver). -/
def pyTruthy : Json → Bool
  | .null => false
  | .bool b => b
  | .num q => q ≠ 0
  | .str s => s ≠ ""
  | .arr xs => !xs.isEmpty
  | .obj fs => !fs.isEmpty

/-- Key lookup in a JSON object (`payload.get(key)`); `none` when the
value is not an object or the key is absent. -/
def jsonGet (j : Json) (k : String) : Option Json :=
  match j with
  | .obj fs => fs.lookup k
  | _ => none

/-! ### Embedder (`debate_arena/search/embedder.py`) -/

/-- One step of the linear congruential generator in `_hash_embed`:
`seed = (seed * 6364136223846793005 + 1 + b) & 0xFFFFFFFFFFFFFFFF`. -/
def lcgStep (seed b : Nat) : Nat := (seed * 6364136223846793005 + 1 + b) &&& mask64

/-- The accumulation loop of `_hash_embed`: for each data byte, advance
the LCG, pick index `seed % dim` and add `+1`/`-1` according to bit 63. -/
def accumLoop (dim seed : Nat) (data : List Nat) (v : List Int) : List Int :=
  match data with
  | [] => v
  | b :: rest =>
    let s2 := lcgStep seed b
    let idx := s2 % dim
    let sign : Int := if s2 >>> 63 = 0 then 1 else -1
    accumLoop dim s2 rest (v.set idx (v.getD idx 0 + sign))

/-- The integer vector accumulated by `_hash_embed` before normalization.
`dim` is taken as in the source: `int(dim) if int(dim) > 0 else 384`;
empty/whitespace-only text returns the zero vector unchanged. -/
def hashEmbedRaw (dim : Int) (text : String) : List Int :=
  let d := if dim > 0 then dim.toNat else 384
  let s := pyStrip text
  let v := List.replicate d (0 : Int)
  if s = "" then v
  else
    let data := utf8Encode s
    let h := blake2b256 data
    let seed := fromBytesLE (h.take 8)
    accumLoop d seed data v

/-- Sum of squared entries (the square of the float vector's L2 norm
computed by `np.linalg.norm`, exactly). -/
def sumSqInt (v : List Int) : Int := (v.map (fun x => x * x)).sum

/-- A normalized float vector `x / norm(x)` is represented exactly as the
integer vector `ints` scaled by `1 / sqrt scaleSq`. -/
structure ScaledVec where
  ints : List Int
  scaleSq : ℚ

/-- Squared L2 norm of a `ScaledVec`. -/
def normSq (e : ScaledVec) : ℚ := ((sumSqInt e.ints : ℚ)) / e.scaleSq

/-- The function `_hash_embed(text, dim=dim)`: the accumulated vector, divided by its
norm when that norm is positive (`if norm > 0: v /= norm`), returned
unnormalized (it is then all-zero) otherwise. -/
def hashEmbed (dim : Int) (text : String) : ScaledVec :=
  let v := hashEmbedRaw dim text
  let s := sumSqInt v
  if 0 < s then ⟨v, (s : ℚ)⟩ else ⟨v, 1⟩

namespace Embedder

/-- The method `Embedder.embed(text)`. Here `mode` and `dim` are the dataclass fields
after `__post_init__`; `st` stands for `self._st_embed` (lazy model
construction plus encoding), a call that can fail; a raised exception is
`Except.error`. The dispatch is exactly the source's:
mode `"hash"` uses the deterministic embedding; modes `"st"` and
`"sentence-transformers"` call the model with no handler; any other mode
tries the model and falls back to the hash embedding on failure. -/
def embed (mode : String) (dim : Int) (st : String → Except Unit ScaledVec)
    (text : String) : Except Unit ScaledVec :=
  if mode = "hash" then .ok (hashEmbed dim text)
  else if mode = "st" ∨ mode = "sentence-transformers" then st text
  else
    match st text with
    | .ok v => .ok v
    | .error _ => .ok (hashEmbed dim text)

end Embedder

/-! ### RedisVectorCache (`debate_arena/search/redis_vector_cache.py`) -/

/-- The stored `payload_json` hash field: an empty byte string (falsy in
`get_exact`), bytes that are not valid JSON (`json.loads` raises), or a
serialized JSON value. `set` only ever writes `valid`. -/
inductive PJson where
  | empty : PJson
  | invalid : PJson
  | valid (j : Json) : PJson

/-- One Redis hash entry, as written by `RedisVectorCache.set`. -/
structure RVEntry where
  query : String
  payloadJson : PJson
  createdAt : ℚ
  embedding : List ℚ

/-- The Redis key space: an association list keyed by the full key
(first binding wins, like a key-value store after upsert-by-prepend). -/
def RedisState := List (String × RVEntry)

/-- Configuration of a `RedisVectorCache` instance. -/
structure RVConfig where
  vectorDim : Nat
  keyPref : String

namespace RedisVectorCache

/-- The helper `_stable_id`: SHA-256 hex digest of the UTF-8 bytes of the trimmed
query. -/
def stableId (q : String) : String := bytesToHex (sha256Bytes (utf8Encode (pyStrip q)))

/-- The helper `_make_key`: key prefix plus item id. -/
def makeKey (cfg : RVConfig) (itemId : String) : String := cfg.keyPref ++ itemId

/-- The dimension-mismatch message of `set`/`search_similar`. -/
def dimErrMsg (got want : Nat) : String :=
  "embedding dim mismatch: " ++ toString got ++ " != " ++ toString want

/-- The method `RedisVectorCache.set(query, payload, embedding)` at time `now`.
The dimension check precedes the store write, so the error case returns
without producing a new state (the store is untouched); on success the
entry is upserted under the stable key. `astype(np.float32)` only changes
the dtype, not the length, and is the identity on the exact model. -/
def set (cfg : RVConfig) (st : RedisState) (query : String) (payload : Json)
    (embedding : List ℚ) (now : ℚ) : Except String RedisState :=
  if embedding.length ≠ cfg.vectorDim then
    .error (dimErrMsg embedding.length cfg.vectorDim)
  else
    .ok ((makeKey cfg (stableId query), ⟨query, .valid payload, now, embedding⟩) :: st)

/-- The state of the store after a `set` call: the new state on success,
the unchanged input state when `set` raised. -/
def runSet (cfg : RVConfig) (st : RedisState) (query : String) (payload : Json)
    (embedding : List ℚ) (now : ℚ) : RedisState :=
  match set cfg st query payload embedding now with
  | .ok st2 => st2
  | .error _ => st

/-- The method `RedisVectorCache.get_exact(query)`: a full hash read on the stable key; an
absent key (empty reply) or an empty `payload_json` field is a miss
(`None`); a non-JSON `payload_json` raises (`json.loads`); otherwise the
decoded payload is returned. -/
def get_exact (cfg : RVConfig) (st : RedisState) (query : String) :
    Except Unit (Option Json) :=
  match st.lookup (makeKey cfg (stableId query)) with
  | none => .ok none
  | some e =>
    match e.payloadJson with
    | .empty => .ok none
    | .invalid => .error ()
    | .valid j => .ok (some j)

/-- The dataclass `RedisSemanticHit`. -/
structure Hit where
  query : String
  payload : Json
  score : ℚ

/-- The `score` field returned by `FT.SEARCH`: a parseable float or not. -/
inductive ScoreField where
  | validF (x : ℚ) : ScoreField
  | invalidF : ScoreField

/-- One raw document of the `FT.SEARCH` reply, after the field list is
folded into a map: the `query`, `payload_json` and `score` fields (the
defaults used for absent fields - empty bytes, a serialized empty dict,
and a zero score - are covered by the
`PJson`/`ScoreField` cases). -/
structure RawDoc where
  query : String
  payloadJson : PJson
  score : ScoreField

/-- The per-document parsing of `search_similar`: a `payload_json` that
fails `json.loads` (or is empty) becomes the empty dict, a `score` that
fails `float()` becomes `0.0`; the document is kept either way. -/
def parseDoc (d : RawDoc) : Hit :=
  { query := d.query
    payload := match d.payloadJson with
      | .valid j => j
      | _ => Json.obj []
    score := match d.score with
      | .validF x => x
      | .invalidF => 0 }

/-- The method `RedisVectorCache.search_similar(embedding, k)`: validates the
embedding dimension (raising on mismatch), then maps the raw reply
documents — supplied here as `docs`, the backend's k-NN answer — through
the tolerant field parsing. -/
def search_similar (cfg : RVConfig) (docs : List RawDoc) (embedding : List ℚ) :
    Except String (List Hit) :=
  if embedding.length ≠ cfg.vectorDim then
    .error (dimErrMsg embedding.length cfg.vectorDim)
  else
    .ok (docs.map parseDoc)

end RedisVectorCache

/-! ### SqliteCache (`debate_arena/search/sqlite_cache.py`) -/

/-- The dataclass `SqliteCacheItem`. -/
structure SqliteCacheItem where
  query : String
  payload : Json
  createdAt : ℚ

/-- The `searx_cache` table: rows keyed by the raw query string
(`query TEXT PRIMARY KEY`), holding `payload_json` and `created_at`. -/
def SqliteState := List (String × (Json × ℚ))

namespace SqliteCache

/-- The method `SqliteCache.get(query)`: exact string lookup, no expiry. -/
def get (st : SqliteState) (query : String) : Option SqliteCacheItem :=
  (st.lookup query).map (fun rc => ⟨query, rc.1, rc.2⟩)

/-- The method `SqliteCache.set(query, payload)`: an upsert, last write
wins. -/
def set (st : SqliteState) (query : String) (payload : Json) (now : ℚ) : SqliteState :=
  (query, (payload, now)) :: st

end SqliteCache

/-! ### SearxngClient (`debate_arena/search/searxng_client.py`) -/

/-- The dataclass `SearxngResult`: one normalized result item. -/
structure SearxngResult where
  title : String
  url : String
  content : String
  engine : Option String
  score : Option ℚ

/-- The dataclass `SearxngSearchResponse` (the `raw` dict is never read by the
resolver and is omitted). -/
structure SearxngSearchResponse where
  query : String
  results : List SearxngResult

/-! ### HybridSearchEngine (`debate_arena/search/hybrid_search.py`) -/

/-- The dataclass `SearchOutcome`. -/
structure SearchOutcome where
  query : String
  source : String
  payload : Json

/-- The collaborators of a `HybridSearchEngine` instance, as the
functions `search` actually calls, each able to raise
(`Except.error () ` models a raised exception caught by the
corresponding `except Exception` handler). -/
structure Tiers where
  getExact : String → Except Unit (Option Json)
  embed : String → Except Unit (List ℚ)
  searchSimilar : List ℚ → Except Unit (List RedisVectorCache.Hit)
  sqliteGet : String → Except Unit (Option SqliteCacheItem)
  liveSearch : String → Except Unit SearxngSearchResponse

/-- The literal payload dict built from a SearXNG response at step 4 of
`search` (`engine`/`score` of value `None` serialize as JSON null). -/
def livePayload (resp : SearxngSearchResponse) : Json :=
  Json.obj
    [("query", Json.str resp.query),
     ("results", Json.arr (resp.results.map (fun r =>
        Json.obj
          [("title", Json.str r.title),
           ("url", Json.str r.url),
           ("content", Json.str r.content),
           ("engine", match r.engine with
             | some s => Json.str s
             | none => Json.null),
           ("score", match r.score with
             | some x => Json.num x
             | none => Json.null)])))]

/-- The degraded payload literal of `search`. -/
def emptyPayload : Json := Json.obj [("results", Json.arr [])]

/-- A `search` result together with which effectful tiers were reached:
`semanticCalled` is true iff `search_similar` was invoked (the embedding
computation succeeded inside step 2), `liveCalled` iff the SearXNG
request was issued (step 4 was reached). -/
structure TracedOutcome where
  outcome : SearchOutcome
  semanticCalled : Bool
  liveCalled : Bool

/-- The method `HybridSearchEngine.search(query)`, step by step, every step's
`except Exception: pass` included:
1. trim; empty query short-circuits to `degraded`;
2. Redis exact hit (a raised lookup is a miss, a falsy payload falls
   through);
3. semantic hit: compute the embedding, then `search_similar`; any
   failure is a miss; a non-empty hit list returns the first hit's
   payload unconditionally — no similarity threshold is consulted;
4. SQLite hit;
5. SearXNG live search; success returns the normalized payload (the
   fire-and-forget write-backs cannot change the returned value and are
   not part of the value-level model), failure degrades.
The `HybridSearchEngine` object keeps no other per-call state: in
particular there is no flag remembering a semantic-tier failure. -/
def searchTraced (t : Tiers) (q0 : String) : TracedOutcome :=
  let query := pyStrip q0
  if query = "" then ⟨⟨query, "degraded", emptyPayload⟩, false, false⟩
  else
    let exactHit : Option Json :=
      match t.getExact query with
      | .ok (some j) => if pyTruthy j then some j else none
      | _ => none
    match exactHit with
    | some j => ⟨⟨query, "redis_exact", j⟩, false, false⟩
    | none =>
      let embRes := t.embed query
      let semCalled := embRes.isOk
      let semHit : Option Json :=
        match embRes with
        | .error _ => none
        | .ok e =>
          match t.searchSimilar e with
          | .ok (h :: _) => some h.payload
          | _ => none
      match semHit with
      | some p => ⟨⟨query, "redis_semantic", p⟩, semCalled, false⟩
      | none =>
        let coldHit : Option Json :=
          match t.sqliteGet query with
          | .ok (some item) => some item.payload
          | _ => none
        match coldHit with
        | some p => ⟨⟨query, "sqlite", p⟩, semCalled, false⟩
        | none =>
          match t.liveSearch query with
          | .error _ => ⟨⟨query, "degraded", emptyPayload⟩, semCalled, true⟩
          | .ok resp => ⟨⟨query, "searxng", livePayload resp⟩, semCalled, true⟩

/-- The value returned by `HybridSearchEngine.search` (total: the shallow
embedding returns a `SearchOutcome` for every input string and every
behaviour of the four tiers, mirroring the fact that every tier-local
exception is absorbed by a handler). -/
def search (t : Tiers) (q0 : String) : SearchOutcome := (searchTraced t q0).outcome

/-- A session of consecutive `search` calls on one engine instance. The
engine object carries no mutable inter-call state (no unsupported-tier
flag), so consecutive calls are independent evaluations. -/
def searchSession (t : Tiers) (qs : List String) : List TracedOutcome :=
  qs.map (searchTraced t)

/-! ### Concrete tier instantiations used by witnesses -/

/-- A resolver whose four tiers all raise. -/
def tAllFail : Tiers where
  getExact := fun _ => .error ()
  embed := fun _ => .error ()
  searchSimilar := fun _ => .error ()
  sqliteGet := fun _ => .error ()
  liveSearch := fun _ => .error ()

/-- A resolver whose semantic backend always signals "unsupported"
(`search_similar` raises on every call) while embeddings succeed and all
other tiers raise. -/
def tSemUnsupported : Tiers where
  getExact := fun _ => .error ()
  embed := fun _ => .ok [1]
  searchSimilar := fun _ => .error ()
  sqliteGet := fun _ => .error ()
  liveSearch := fun _ => .error ()

/-- A semantic hit with a large distance score (score is never
consulted by the resolver). -/
def hitFar : RedisVectorCache.Hit :=
  ⟨"cached question", Json.obj [("answer", Json.str "42")], 99⟩

/-- A resolver whose exact tier misses and whose semantic tier returns
`hitFar` as the single neighbour. -/
def tSemHit : Tiers where
  getExact := fun _ => .ok none
  embed := fun _ => .ok [1]
  searchSimilar := fun _ => .ok [hitFar]
  sqliteGet := fun _ => .error ()
  liveSearch := fun _ => .error ()

/-- A cold-cache state holding one row. -/
def stCold : SqliteState := [("q1", (Json.str "cold payload", 0))]

/-- A resolver wired to `stCold`: exact tier misses, semantic tier
unsupported, live tier raises. -/
def tColdHit : Tiers where
  getExact := fun _ => .ok none
  embed := fun _ => .ok [1]
  searchSimilar := fun _ => .error ()
  sqliteGet := fun s => .ok (SqliteCache.get stCold s)
  liveSearch := fun _ => .error ()

/-- A one-dimensional vector-cache configuration. -/
def cfgDim1 : RVConfig := ⟨1, "searx_cache:"⟩

/-- A raw similarity document whose `payload_json` is not valid JSON and
whose `score` is not a parseable float. -/
def docBad : RedisVectorCache.RawDoc := ⟨"stale entry", .invalid, .invalidF⟩

/-- A resolver whose semantic tier is the real `search_similar` parsing
over the single malformed document `docBad`. -/
def tBadDoc : Tiers where
  getExact := fun _ => .ok none
  embed := fun _ => .ok [1]
  searchSimilar := fun v =>
    (RedisVectorCache.search_similar cfgDim1 [docBad] v).mapError (fun _ => ())
  sqliteGet := fun _ => .error ()
  liveSearch := fun _ => .error ()

/-- A two-dimensional vector-cache configuration. -/
def cfgDim2 : RVConfig := ⟨2, "searx_cache:"⟩

/-- A sample stored payload. -/
def samplePayload : Json :=
  Json.obj [("query", Json.str "hi"), ("results", Json.arr [Json.str "r1"])]



/-- The blake2b-256 initial state (IV with the parameter-block word
folded into `h[0]`). -/
def blakeH0Val : List Nat := [7640891576939301160, 13503953896175478587, 4354685564936845355, 11912009170470909681,
     5840696475078001361, 11170449401992604703, 2270897969802886507, 6620516959819538809]

/-- Message words of the single padded block of Aa. -/
def mAaVal : List Nat := [24929, 0, 0, 0,
     0, 0, 0, 0,
     0, 0, 0, 0,
     0, 0, 0, 0]

/-- Message words of the single padded block of Hello. -/
def mHelloVal : List Nat := [478560413032, 0, 0, 0,
     0, 0, 0, 0,
     0, 0, 0, 0,
     0, 0, 0, 0]

/-! ### Theorems -/

/-- C1: for every input string and every behaviour of the four tiers,
`search` returns a `SearchOutcome` (the embedding is a total function,
mirroring the per-tier `except` handlers), and when the exact lookup
fails or misses, the semantic lookup fails or returns no hits, the cold
lookup fails or misses, and the live fetch raises, the outcome carries
the `degraded` source tag and the payload with an empty results list. -/
theorem search_all_tiers_fail_degraded (t : Tiers) (q : String)
    (hExact : t.getExact (pyStrip q) = .error () ∨ t.getExact (pyStrip q) = .ok none)
    (hSem : ∀ e, t.embed (pyStrip q) = .ok e →
      t.searchSimilar e = .error () ∨ t.searchSimilar e = .ok [])
    (hCold : t.sqliteGet (pyStrip q) = .error () ∨ t.sqliteGet (pyStrip q) = .ok none)
    (hLive : t.liveSearch (pyStrip q) = .error ()) :
    (search t q).source = "degraded" ∧ (search t q).payload = emptyPayload := by
  unfold search searchTraced
  by_cases hq : pyStrip q = ""
  · simp [hq]
  · rcases hExact with hE | hE <;>
    rcases hCold with hC | hC <;>
    cases hEmb : t.embed (pyStrip q) with
    | error u => simp [hq, hE, hC, hEmb, hLive]
    | ok e => rcases hSem e hEmb with hS | hS <;> simp [hq, hE, hC, hEmb, hS, hLive]

/-- C1 witness: the all-raising resolver degrades on a concrete query. -/
theorem search_all_tiers_fail_degraded_witness :
    (search tAllFail "question").source = "degraded" ∧
      (search tAllFail "question").payload = emptyPayload :=
  search_all_tiers_fail_degraded tAllFail "question" (Or.inl rfl)
    (fun _ h => nomatch h) (Or.inl rfl) rfl

/-- C4: whenever the exact tier misses or fails and `search_similar`
returns a non-empty hit list, `search` returns the semantic source tag
with the first hit's payload — for every value of the hit's `score`
field, i.e. acceptance is unconditional, gated by no similarity or
distance threshold. -/
theorem search_semantic_top1_unconditional (t : Tiers) (q : String) (e : List ℚ)
    (h : RedisVectorCache.Hit) (rest : List RedisVectorCache.Hit)
    (hq : pyStrip q ≠ "")
    (hExact : t.getExact (pyStrip q) = .error () ∨ t.getExact (pyStrip q) = .ok none)
    (hEmb : t.embed (pyStrip q) = .ok e)
    (hHits : t.searchSimilar e = .ok (h :: rest)) :
    search t q = ⟨pyStrip q, "redis_semantic", h.payload⟩ := by
  unfold search searchTraced
  rcases hExact with hE | hE <;> simp [hq, hE, hEmb, hHits]

/-- C4 witness: a top hit with distance score 99 is accepted. -/
theorem search_semantic_top1_unconditional_witness :
    search tSemHit "alpha" = ⟨pyStrip "alpha", "redis_semantic", hitFar.payload⟩ :=
  search_semantic_top1_unconditional tSemHit "alpha" [1] hitFar []
    (by decide) (Or.inr rfl) rfl rfl

/-- C3 (amended): the resolver holds no session memory of a semantic
failure — on every call whose trimmed query is non-empty and whose
exact tier misses or fails, if the embedding succeeds then
`search_similar` is invoked, regardless of any earlier unsupported
signal. -/
theorem search_semantic_reattempted (t : Tiers) (q : String) (e : List ℚ)
    (hq : pyStrip q ≠ "")
    (hExact : t.getExact (pyStrip q) = .error () ∨ t.getExact (pyStrip q) = .ok none)
    (hEmb : t.embed (pyStrip q) = .ok e) :
    (searchTraced t q).semanticCalled = true := by
  unfold searchTraced
  rcases hExact with hE | hE <;> simp [hq, hE, hEmb] <;>
  repeat first | rfl | split

/-- C3 amended witness. -/
theorem search_semantic_reattempted_witness :
    (searchTraced tSemUnsupported "alpha").semanticCalled = true :=
  search_semantic_reattempted tSemUnsupported "alpha" [1] (by decide) (Or.inl rfl) rfl

/-- C3 counterexample: in a two-call session against a backend whose
ANN capability is permanently unsupported (every `search_similar` call
raises),
the second call still invokes `search_similar` — the claimed
skip-for-the-session behaviour does not hold. -/
theorem search_no_session_skip_counterexample :
    (searchSession tSemUnsupported ["alpha", "beta"]).map TracedOutcome.semanticCalled =
      [true, true] := by decide

/-- C6: when the exact tier misses or fails, the semantic tier fails or
is unsupported, and the SQLite cold cache holds a row for the (trimmed)
query, `search` returns the `sqlite` source tag with exactly the stored
payload, and the live provider is never called. -/
theorem search_cold_hit (t : Tiers) (st : SqliteState) (q : String) (item : SqliteCacheItem)
    (hq : pyStrip q ≠ "")
    (hExact : t.getExact (pyStrip q) = .error () ∨ t.getExact (pyStrip q) = .ok none)
    (hSem : ∀ e, t.embed (pyStrip q) = .ok e → t.searchSimilar e = .error ())
    (hWired : t.sqliteGet = fun s => .ok (SqliteCache.get st s))
    (hHit : SqliteCache.get st (pyStrip q) = some item) :
    search t q = ⟨pyStrip q, "sqlite", item.payload⟩ ∧
      (searchTraced t q).liveCalled = false := by
  unfold search searchTraced
  rcases hExact with hE | hE <;>
  cases hEmb : t.embed (pyStrip q) with
  | error u => simp [hq, hE, hEmb, hWired, hHit]
  | ok e => simp [hq, hE, hEmb, hSem e hEmb, hWired, hHit]

/-- C6 witness. -/
theorem search_cold_hit_witness :
    search tColdHit "q1" = ⟨pyStrip "q1", "sqlite", Json.str "cold payload"⟩ ∧
      (searchTraced tColdHit "q1").liveCalled = false :=
  search_cold_hit tColdHit stCold "q1" ⟨"q1", Json.str "cold payload", 0⟩
    (by decide) (Or.inr rfl) (fun _ _ => rfl) rfl rfl

/-- C9: a stored entry whose `payload_json` is not valid JSON (and whose
`score` is not a parseable float) is not dropped by `search_similar`:
it is returned as a hit with the empty-dict payload and score `0.0`, and
a resolver whose semantic tier serves that entry first returns an
`Outcome` tagged `redis_semantic` whose payload is the empty dict — in
particular it has no `results` key. -/
theorem searchSimilar_malformed_payload_kept (t : Tiers) (cfg : RVConfig) (q : String)
    (d : RedisVectorCache.RawDoc) (docs : List RedisVectorCache.RawDoc) (e : List ℚ)
    (hBad : d.payloadJson = .invalid ∨ d.payloadJson = .empty)
    (hScore : d.score = .invalidF)
    (hq : pyStrip q ≠ "")
    (hExact : t.getExact (pyStrip q) = .error () ∨ t.getExact (pyStrip q) = .ok none)
    (hEmb : t.embed (pyStrip q) = .ok e)
    (hDim : e.length = cfg.vectorDim)
    (hWired : t.searchSimilar =
      fun v => (RedisVectorCache.search_similar cfg (d :: docs) v).mapError (fun _ => ())) :
    RedisVectorCache.parseDoc d = ⟨d.query, Json.obj [], 0⟩ ∧
      search t q = ⟨pyStrip q, "redis_semantic", Json.obj []⟩ ∧
      jsonGet (Json.obj []) "results" = none := by
  have hParse : RedisVectorCache.parseDoc d = ⟨d.query, Json.obj [], 0⟩ := by
    rcases hBad with hB | hB <;>
    simp [RedisVectorCache.parseDoc, hB, hScore]
  refine ⟨hParse, ?_, rfl⟩
  have hHits : t.searchSimilar e =
      .ok (RedisVectorCache.parseDoc d :: docs.map RedisVectorCache.parseDoc) := by
    simp [hWired, RedisVectorCache.search_similar, hDim, Except.mapError]
  unfold search searchTraced
  rcases hExact with hE | hE <;> simp [hq, hE, hEmb, hHits, hParse]

/-- C9 witness. -/
theorem searchSimilar_malformed_payload_kept_witness :
    RedisVectorCache.parseDoc docBad = ⟨docBad.query, Json.obj [], 0⟩ ∧
      search tBadDoc "alpha" = ⟨pyStrip "alpha", "redis_semantic", Json.obj []⟩ ∧
      jsonGet (Json.obj []) "results" = none :=
  searchSimilar_malformed_payload_kept tBadDoc cfgDim1 "alpha" docBad [] [1]
    (Or.inl rfl) rfl (by decide) (Or.inr rfl) rfl rfl rfl

/-- C7: `RedisVectorCache.set` raises the dimension error exactly when
the embedding's length differs from the configured vector dimension, and
in that case the validation error precedes any write: the store is left
exactly as it was. -/
theorem redis_set_dim_guard (cfg : RVConfig) (st : RedisState) (q : String) (p : Json)
    (emb : List ℚ) (now : ℚ) :
    ((RedisVectorCache.set cfg st q p emb now).isOk = true ↔ emb.length = cfg.vectorDim) ∧
    (emb.length ≠ cfg.vectorDim →
      RedisVectorCache.set cfg st q p emb now =
        .error (RedisVectorCache.dimErrMsg emb.length cfg.vectorDim) ∧
      RedisVectorCache.runSet cfg st q p emb now = st) := by
  by_cases h : emb.length = cfg.vectorDim <;>
  simp [RedisVectorCache.set, RedisVectorCache.runSet, h, Except.isOk, Except.toBool]

/-- C7 witness: a length-3 embedding against a dimension-2 cache is
rejected and leaves a one-entry store unchanged. -/
theorem redis_set_dim_guard_witness :
    ¬((RedisVectorCache.set cfgDim2
        (RedisVectorCache.runSet cfgDim2 [] "hi" samplePayload [1, 2] 0)
        "other" samplePayload [1, 2, 3] 1).isOk = true) ∧
      RedisVectorCache.runSet cfgDim2
        (RedisVectorCache.runSet cfgDim2 [] "hi" samplePayload [1, 2] 0)
        "other" samplePayload [1, 2, 3] 1 =
        RedisVectorCache.runSet cfgDim2 [] "hi" samplePayload [1, 2] 0 := by
  constructor
  · intro h
    exact absurd ((redis_set_dim_guard cfgDim2
      (RedisVectorCache.runSet cfgDim2 [] "hi" samplePayload [1, 2] 0)
      "other" samplePayload [1, 2, 3] 1).1.mp h) (by decide)
  · exact ((redis_set_dim_guard cfgDim2
      (RedisVectorCache.runSet cfgDim2 [] "hi" samplePayload [1, 2] 0)
      "other" samplePayload [1, 2, 3] 1).2 (by decide)).2

/-- C8: for every query, JSON payload and embedding of the configured
dimension, `set` followed immediately by `get_exact` on the same query
returns exactly the stored payload. -/
theorem redis_set_get_exact_roundtrip (cfg : RVConfig) (st : RedisState) (q : String)
    (p : Json) (emb : List ℚ) (now : ℚ)
    (hDim : emb.length = cfg.vectorDim) :
    RedisVectorCache.get_exact cfg (RedisVectorCache.runSet cfg st q p emb now) q =
      .ok (some p) := by
  unfold RedisVectorCache.get_exact RedisVectorCache.runSet RedisVectorCache.set
  simp [hDim, List.lookup]

/-- C8 witness. -/
theorem redis_set_get_exact_roundtrip_witness :
    RedisVectorCache.get_exact cfgDim2
        (RedisVectorCache.runSet cfgDim2 [] "hi" samplePayload [1, 2] 0) "hi" =
      .ok (some samplePayload) :=
  redis_set_get_exact_roundtrip cfgDim2 [] "hi" samplePayload [1, 2] 0 rfl

/-- C10: `set` and `get_exact` both key by the SHA-256 digest of the
trimmed query, so a write under `q'` is read back under any `q` with the
same trimmed core — queries equal up to surrounding whitespace share one
exact-cache entry. -/
theorem redis_exact_key_ignores_whitespace (cfg : RVConfig) (st : RedisState)
    (q q' : String) (p : Json) (emb : List ℚ) (now : ℚ)
    (hEq : pyStrip q = pyStrip q')
    (hDim : emb.length = cfg.vectorDim) :
    RedisVectorCache.get_exact cfg (RedisVectorCache.runSet cfg st q' p emb now) q =
      .ok (some p) := by
  have hid : RedisVectorCache.stableId q = RedisVectorCache.stableId q' := by
    unfold RedisVectorCache.stableId
    rw [hEq]
  unfold RedisVectorCache.get_exact RedisVectorCache.runSet RedisVectorCache.set
  simp [hDim, hid, List.lookup]

/-- C10 witness: a payload stored under `" hi "` is found under `"hi"`. -/
theorem redis_exact_key_ignores_whitespace_witness :
    RedisVectorCache.get_exact cfgDim2
        (RedisVectorCache.runSet cfgDim2 [] " hi " samplePayload [1, 2] 0) "hi" =
      .ok (some samplePayload) :=
  redis_exact_key_ignores_whitespace cfgDim2 [] "hi" " hi " samplePayload [1, 2] 0
    (by decide) rfl

/-- C2 (amended): `Embedder.embed` cannot raise in `"hash"` mode, and in
any unrecognized mode a model failure falls back to the deterministic
hash embedding for that call; but when the mode is exactly `"st"` or
`"sentence-transformers"`, a model construction/encoding failure
propagates to the caller. -/
theorem embedder_embed_fallback (mode : String) (dim : Int)
    (st : String → Except Unit ScaledVec) (text : String)
    (h1 : mode ≠ "st") (h2 : mode ≠ "sentence-transformers") :
    (Embedder.embed mode dim st text).isOk = true ∧
    (mode ≠ "hash" → st text = .error () →
      Embedder.embed mode dim st text = .ok (hashEmbed dim text)) := by
  unfold Embedder.embed
  by_cases hm : mode = "hash"
  · simp [hm, Except.isOk, Except.toBool]
  · simp only [hm, h1, h2, if_false, false_or, or_self, ite_false]
    cases hst : st text <;> simp [Except.isOk, Except.toBool, hst, hm]

/-- C2 amended witness: an unrecognized mode with a failing model falls
back to the hash embedding. -/
theorem embedder_embed_fallback_witness :
    (Embedder.embed "custom" 4 (fun _ => .error ()) "hi").isOk = true ∧
      Embedder.embed "custom" 4 (fun _ => .error ()) "hi" = .ok (hashEmbed 4 "hi") := by
  have h := embedder_embed_fallback "custom" 4 (fun _ => .error ()) "hi"
    (by decide) (by decide)
  exact ⟨h.1, h.2 (by decide) rfl⟩

/-- C2 counterexample: in mode `"st"` a failing model propagates the
failure — `embed` raises instead of falling back, refuting both the
"never raises" and the "falls back for model-backed mode" parts of the
claim. -/
theorem embedder_st_failure_propagates :
    Embedder.embed "st" 384 (fun _ => .error ()) "hello" = .error () := rfl

/-! ### Kernel evaluation of blake2b at the concrete inputs of the
embedding theorems. The full hash is too long a computation chain for a
single kernel reduction, so it is cut at the round boundaries of the
compression function: each step below is checked by `decide` and the
steps are composed by rewriting. -/

set_option maxRecDepth 8000
theorem blakeH0Eq : blakeIV.set 0 ((blakeIV.getD 0 0) ^^^ 0x01010020) = blakeH0Val := by decide

theorem range12Split : List.range 12 = [0, 1, 2, 3] ++ ([4, 5, 6, 7] ++ [8, 9, 10, 11]) := by decide

theorem blakeAaWords : blakeWords (pad128 [97, 97]) = mAaVal := by decide

theorem blakeAaInit :
    blakeInit blakeH0Val 2 true = [7640891576939301160, 13503953896175478587, 4354685564936845355, 11912009170470909681,
     5840696475078001361, 11170449401992604703, 2270897969802886507, 6620516959819538809,
     7640891576956012808, 13503953896175478587, 4354685564936845355, 11912009170470909681,
     5840696475078001363, 11170449401992604703, 16175846103906665108, 6620516959819538809] := by decide

theorem blakeAaRounds1 :
    List.foldl (fun v r => blakeRound v mAaVal (blakeSigma.getD (r % 10) []))
      [7640891576939301160, 13503953896175478587, 4354685564936845355, 11912009170470909681,
     5840696475078001361, 11170449401992604703, 2270897969802886507, 6620516959819538809,
     7640891576956012808, 13503953896175478587, 4354685564936845355, 11912009170470909681,
     5840696475078001363, 11170449401992604703, 16175846103906665108, 6620516959819538809] [0, 1, 2, 3] = [3755012940127367652, 15240560920937529869, 10599418917478336111, 16702167400209048183,
     15764706712931662802, 6552214378171737339, 3104011584452014414, 8739689755929266639,
     9449505160886093574, 3299982985726184137, 2921918487554412186, 6311694434781712412,
     17568319298319221248, 16848699500744036615, 6808483369259218359, 1286762132678542787] := by decide

theorem blakeAaRounds2 :
    List.foldl (fun v r => blakeRound v mAaVal (blakeSigma.getD (r % 10) []))
      [3755012940127367652, 15240560920937529869, 10599418917478336111, 16702167400209048183,
     15764706712931662802, 6552214378171737339, 3104011584452014414, 8739689755929266639,
     9449505160886093574, 3299982985726184137, 2921918487554412186, 6311694434781712412,
     17568319298319221248, 16848699500744036615, 6808483369259218359, 1286762132678542787] [4, 5, 6, 7] = [5467937565108757856, 6109719304631678265, 10202181565051390018, 16054999832578199999,
     17491878251880918131, 13755594858228579986, 1008972736109067282, 1289041360633782734,
     2904781523146547936, 732993054277076208, 16537117079611571958, 1714687358925049314,
     18285274022938010275, 8462834581073690842, 7245239703034151349, 16819948778337337945] := by decide

theorem blakeAaRounds3 :
    List.foldl (fun v r => blakeRound v mAaVal (blakeSigma.getD (r % 10) []))
      [5467937565108757856, 6109719304631678265, 10202181565051390018, 16054999832578199999,
     17491878251880918131, 13755594858228579986, 1008972736109067282, 1289041360633782734,
     2904781523146547936, 732993054277076208, 16537117079611571958, 1714687358925049314,
     18285274022938010275, 8462834581073690842, 7245239703034151349, 16819948778337337945] [8, 9, 10, 11] = [6886766205277166141, 7075230800816502503, 10834687334919280625, 12944023847449155876,
     13354783044364321953, 1313676224488453939, 10338493506182183688, 10667489043631301998,
     11796483350811550243, 778823875472321425, 1852912070181278520, 9067407854448758582,
     11965772279157600850, 7731510173162921525, 9665982461560512060, 11963109101055163417] := by decide

theorem blakeAaCompress :
    blakeCompress blakeH0Val mAaVal 2 true = [10821820175064936758, 15247246982562298445, 12935644894745935074, 7726060703588032739,
     5644448967493153826, 16318127593281619225, 1647784666978195551, 7633537069408548878] := by
  unfold blakeCompress
  rw [blakeAaInit, range12Split, List.foldl_append, List.foldl_append,
    blakeAaRounds1, blakeAaRounds2, blakeAaRounds3]
  decide

theorem blakeAaDigest : blake2b256 [97, 97] = [54, 177, 230, 221, 28, 212, 46, 150, 77, 186, 69, 230, 88, 26, 153, 211, 226, 60, 237, 235, 126, 164, 132, 179, 227, 32, 120, 134, 70, 123, 56, 107] := by
  simp only [blake2b256]
  rw [blakeH0Eq]
  rw [show blakeGo blakeH0Val 0 [97, 97] (List.length [97, 97]) =
    blakeCompress blakeH0Val (blakeWords (pad128 [97, 97])) 2 true from by
      rw [blakeGo.eq_def]
      norm_num]
  rw [blakeAaWords, blakeAaCompress]
  decide

theorem blakeHelloWords : blakeWords (pad128 [104, 101, 108, 108, 111]) = mHelloVal := by decide

theorem blakeHelloInit :
    blakeInit blakeH0Val 5 true = [7640891576939301160, 13503953896175478587, 4354685564936845355, 11912009170470909681,
     5840696475078001361, 11170449401992604703, 2270897969802886507, 6620516959819538809,
     7640891576956012808, 13503953896175478587, 4354685564936845355, 11912009170470909681,
     5840696475078001364, 11170449401992604703, 16175846103906665108, 6620516959819538809] := by decide

theorem blakeHelloRounds1 :
    List.foldl (fun v r => blakeRound v mHelloVal (blakeSigma.getD (r % 10) []))
      [7640891576939301160, 13503953896175478587, 4354685564936845355, 11912009170470909681,
     5840696475078001361, 11170449401992604703, 2270897969802886507, 6620516959819538809,
     7640891576956012808, 13503953896175478587, 4354685564936845355, 11912009170470909681,
     5840696475078001364, 11170449401992604703, 16175846103906665108, 6620516959819538809] [0, 1, 2, 3] = [455673885591001999, 1502154134673762670, 12998622093113826149, 10588092287473309080,
     12800063848989392406, 10281360560973684779, 17714702150514882050, 4066244066870533435,
     1299051483098467576, 18364393641010943795, 3939832486626640802, 2774918517320565987,
     11890088260542911733, 8687345245365422954, 5031159244455551889, 11670764260203115963] := by decide

theorem blakeHelloRounds2 :
    List.foldl (fun v r => blakeRound v mHelloVal (blakeSigma.getD (r % 10) []))
      [455673885591001999, 1502154134673762670, 12998622093113826149, 10588092287473309080,
     12800063848989392406, 10281360560973684779, 17714702150514882050, 4066244066870533435,
     1299051483098467576, 18364393641010943795, 3939832486626640802, 2774918517320565987,
     11890088260542911733, 8687345245365422954, 5031159244455551889, 11670764260203115963] [4, 5, 6, 7] = [8902637453307738, 17296208093793396208, 3618651300444212898, 13843560593903417320,
     6981198441993109078, 15231742115588525015, 10661844377270507908, 5860337491873428632,
     13762431890136272366, 16620732354102854860, 16825947872322542692, 14205955086200773201,
     3367800984779046875, 15091212460121747521, 15273027601489766699, 9450013678226183690] := by decide

theorem blakeHelloRounds3 :
    List.foldl (fun v r => blakeRound v mHelloVal (blakeSigma.getD (r % 10) []))
      [8902637453307738, 17296208093793396208, 3618651300444212898, 13843560593903417320,
     6981198441993109078, 15231742115588525015, 10661844377270507908, 5860337491873428632,
     13762431890136272366, 16620732354102854860, 16825947872322542692, 14205955086200773201,
     3367800984779046875, 15091212460121747521, 15273027601489766699, 9450013678226183690] [8, 9, 10, 11] = [10377102270910783404, 3378177158838514071, 5576749625202292596, 9083443644318973082,
     11331079645637747922, 5934332694035134438, 8135781107276983015, 11983518138211581041,
     17341371576779266998, 9053157233917360703, 17937788845681563700, 1455561377434332963,
     4094844147689602402, 11202787630793268681, 16136226595824938166, 14248464401913454194] := by decide

theorem blakeHelloCompress :
    blakeCompress blakeH0Val mHelloVal 5 true = [766689994966256946, 16727875579436870803, 9936551171390773099, 14948040592183272776,
     17626395794265545569, 5919945796440000048, 12719472651409472314, 4040425653565817722] := by
  unfold blakeCompress
  rw [blakeHelloInit, range12Split, List.foldl_append, List.foldl_append,
    blakeHelloRounds1, blakeHelloRounds2, blakeHelloRounds3]
  decide

theorem blakeHelloDigest : blake2b256 [104, 101, 108, 108, 111] = [50, 77, 207, 2, 125, 212, 163, 10, 147, 44, 68, 31, 54, 90, 37, 232, 107, 23, 61, 239, 164, 184, 229, 137, 72, 37, 52, 113, 184, 27, 114, 207] := by
  simp only [blake2b256]
  rw [blakeH0Eq]
  rw [show blakeGo blakeH0Val 0 [104, 101, 108, 108, 111] (List.length [104, 101, 108, 108, 111]) =
    blakeCompress blakeH0Val (blakeWords (pad128 [104, 101, 108, 108, 111])) 5 true from by
      rw [blakeGo.eq_def]
      norm_num]
  rw [blakeHelloWords, blakeHelloCompress]
  decide


/-- Evaluation of the `_hash_embed` accumulation for `"aa"` at dimension
1: the two byte contributions carry opposite signs and cancel exactly. -/
theorem hashRawAa : hashEmbedRaw 1 "aa" = [0] := by
  simp only [hashEmbedRaw]
  rw [show pyStrip "aa" = "aa" from by decide]
  rw [show utf8Encode "aa" = [97, 97] from by decide]
  rw [blakeAaDigest]
  decide

/-- Evaluation of the `_hash_embed` accumulation for `"hello"` at
dimension 3. -/
theorem hashRawHello : hashEmbedRaw 3 "hello" = [0, 0, -1] := by
  simp only [hashEmbedRaw]
  rw [show pyStrip "hello" = "hello" from by decide]
  rw [show utf8Encode "hello" = [104, 101, 108, 108, 111] from by decide]
  rw [blakeHelloDigest]
  decide

/-- The sum of squares of the zero vector. -/
theorem sumSqInt_replicate_zero (n : Nat) : sumSqInt (List.replicate n (0 : Int)) = 0 := by
  induction n with
  | zero => rfl
  | succ k ih => simpa [sumSqInt, List.replicate_succ] using ih

/-- A sum of squares is nonnegative. -/
theorem sumSqInt_nonneg (v : List Int) : 0 ≤ sumSqInt v := by
  induction v with
  | nil => simp [sumSqInt]
  | cons x xs ih =>
    simp only [sumSqInt, List.map_cons, List.sum_cons] at ih ⊢
    have hx := mul_self_nonneg x
    linarith

/-- C5 (amended): in deterministic hash mode the embedding is a pure
function of text and dimension (two calls with identical arguments are
definitionally the same value); empty or whitespace-only text yields
the all-zero vector; and a non-empty text yields a vector of L2 norm
exactly 1 whenever the signed byte contributions do not cancel
(`0 < sumSqInt`), while exact cancellation leaves the all-zero vector
(norm 0) — the unconditional "norm 1 for every non-empty text" of the
original claim does not hold. -/
theorem hashEmbed_norm_dichotomy (dim : Int) (text : String) :
    (pyStrip text = "" →
      hashEmbed dim text =
        ⟨List.replicate (if dim > 0 then dim.toNat else 384) 0, 1⟩ ∧
      normSq (hashEmbed dim text) = 0) ∧
    (0 < sumSqInt (hashEmbedRaw dim text) → normSq (hashEmbed dim text) = 1) ∧
    (sumSqInt (hashEmbedRaw dim text) = 0 →
      hashEmbed dim text = ⟨hashEmbedRaw dim text, 1⟩ ∧
      normSq (hashEmbed dim text) = 0) := by
  refine ⟨?_, ?_, ?_⟩
  · intro h
    have hraw : hashEmbedRaw dim text =
        List.replicate (if dim > 0 then dim.toNat else 384) 0 := by
      unfold hashEmbedRaw
      simp [h]
    constructor
    · unfold hashEmbed
      simp [hraw, sumSqInt_replicate_zero]
    · unfold normSq hashEmbed
      simp [hraw, sumSqInt_replicate_zero]
  · intro h
    unfold normSq hashEmbed
    simp only [h, if_pos]
    rw [div_self]
    exact_mod_cast h.ne'
  · intro h
    unfold hashEmbed normSq
    simp [h]

/-- C5 witness: `"hello"` at dimension 3 has norm 1, and whitespace-only
text at dimension 5 embeds to the zero vector. -/
theorem hashEmbed_norm_dichotomy_witness :
    normSq (hashEmbed 3 "hello") = 1 ∧
      hashEmbed 5 "  " = ⟨List.replicate (if (5 : Int) > 0 then (5 : Int).toNat else 384) 0, 1⟩ :=
  ⟨(hashEmbed_norm_dichotomy 3 "hello").2.1 (by rw [hashRawHello]; decide),
   ((hashEmbed_norm_dichotomy 5 "  ").1 (by decide)).1⟩

/-- C5 counterexample: the non-empty text `"aa"` at configured dimension
1 produces two contributions of opposite sign, the accumulated vector is
the zero vector, and the returned embedding has L2 norm 0, not 1. -/
theorem hashEmbed_unit_norm_counterexample :
    pyStrip "aa" ≠ "" ∧ hashEmbedRaw 1 "aa" = [0] ∧
      normSq (hashEmbed 1 "aa") = 0 ∧ ¬ normSq (hashEmbed 1 "aa") = 1 := by
  have h0 : sumSqInt (hashEmbedRaw 1 "aa") = 0 := by rw [hashRawAa]; decide
  have hz : normSq (hashEmbed 1 "aa") = 0 := by
    unfold normSq hashEmbed
    simp [h0]
  exact ⟨by decide, hashRawAa, hz, by rw [hz]; norm_num⟩
